import Mathlib

/-!
Verification development for the flying_emu bridge
(source: src/flying_emu/__init__.py).

The program polls an EMU-2 energy monitor over a serial link and republishes
two derived readings (CurrentSummation, InstantaneousDemand) to an MQTT broker.
We embed, faithfully to the source:

1. the value semantics of the reading conversion
   `Decimal(raw) * multiplier / divisor` under Python's default decimal
   context (28 significant digits, round-half-even on the magnitude);
2. the polling loop (lines 147-201) as a step function on the
   `emu_unresponsive` counter, producing a trace of externally visible
   actions per cycle;
3. the straight-line startup of `run` (lines 52-145) and the exception
   handler of `main` (lines 43-49).

External collaborators (emu_power device driver, paho MQTT client) are
modelled at their interface boundary, as the spec prescribes: device
requests are inputs (an optional reading per request), `start_serial`
returns a success flag, and MQTT calls are recorded as trace actions.
Discovery-descriptor payload contents are abstracted to tags since no
claim inspects them.
-/

namespace FlyingEmu

/-- Threshold constant from line 17 of the source: `CLIENT_UNRESPONSIVE_MAX = 3`. -/
def CLIENT_UNRESPONSIVE_MAX : ℕ := 3

/-! ### Decimal arithmetic model

Python's `decimal` module computes `*` and `/` exactly and then rounds the
result to the context precision (default 28 significant digits) with
ROUND_HALF_EVEN applied to the magnitude.  We model the *value* of a Decimal
as a rational and each arithmetic step as correct rounding to 28 significant
digits.  (When the exact result fits in 28 significant digits the rounded
value equals the exact value, matching Python, which keeps exact results
exactly in that case.) -/

/-- Precision (number of significant digits) of Python's default decimal context. -/
def DECIMAL_PREC : ℕ := 28

/-- Round a rational to an integer, halves to the even neighbour
(the ROUND_HALF_EVEN rule applied at integer granularity). -/
def rhe (x : ℚ) : ℤ :=
  let f := ⌊x⌋
  let r := x - (f : ℚ)
  if r < 1 / 2 then f
  else if 1 / 2 < r then f + 1
  else if f % 2 = 0 then f else f + 1

/-- Floor of the base-10 logarithm of a rational, meaningful for positive
inputs (the adjusted exponent of the decimal representation). -/
def floorLog10 (a : ℚ) : ℤ :=
  if 1 ≤ a then (Nat.log 10 ⌊a⌋.toNat : ℤ)
  else
    let L : ℤ := (Nat.log 10 ⌊a⁻¹⌋.toNat : ℤ)
    if a * 10 ^ L = 1 then -L else -(L + 1)

/-- Value of rounding a positive rational to `DECIMAL_PREC` significant
digits, half to even. -/
def decRoundPos (a : ℚ) : ℚ :=
  ((rhe (a * 10 ^ (((DECIMAL_PREC : ℤ)) - 1 - floorLog10 a)) : ℤ) : ℚ)
    * 10 ^ (floorLog10 a - ((DECIMAL_PREC : ℤ) - 1))

/-- Value of rounding a rational to `DECIMAL_PREC` significant digits; the
rounding rule acts on the magnitude, as in Python's decimal module. -/
def decRound (q : ℚ) : ℚ :=
  if q = 0 then 0
  else if q < 0 then - decRoundPos (-q) else decRoundPos q

/-- Value of `Decimal(raw) * mult / div` (lines 167 and 184 of the source):
the integer product is rounded to context precision, then the quotient is
rounded to context precision. -/
def convert (raw mult div : ℤ) : ℚ :=
  decRound (decRound ((raw : ℚ) * (mult : ℚ)) / (div : ℚ))

/-! ### Device responses and loop inputs -/

/-- Fields of an emu_power response object that the loop consumes.  `value`
stands for `summation_delivered` (CurrentSummation) or `demand`
(InstantaneousDemand); `timestamp` is the raw attribute tested for Python
truthiness (`None` or the empty string are falsy). -/
structure Reading where
  timestamp : Option String
  value : ℤ
  multiplier : ℤ
  divisor : ℤ
  deriving DecidableEq

/-- Python truthiness test from lines 154 and 171:
`not response or not response.timestamp`. -/
def nonResponse : Option Reading → Bool
  | none => true
  | some r =>
    match r.timestamp with
    | none => true
    | some s => s == ""

/-- Conversion applied to an optional response; the `none` case is junk and
is unreachable in the guarded branches of the loop. -/
def convertOpt : Option Reading → ℚ
  | none => 0
  | some r => convert r.value r.multiplier r.divisor

/-- Topics the program touches, abstracted from the concrete
meter-MAC-namespaced topic strings (all five are built from the same
`mqtt_prefix` f-string; no claim inspects the string contents). -/
inductive Topic where
  | availability
  | csConfig
  | idConfig
  | csState
  | idState
  deriving DecidableEq

/-- Message payloads.  `readingJson q` stands for the single-field JSON
object with key `reading` and value `float(q)`; the discovery descriptor
dictionaries are abstracted to tags. -/
inductive Payload where
  | str : String → Payload
  | readingJson : ℚ → Payload
  | discoveryCs : Payload
  | discoveryId : Payload
  deriving DecidableEq

/-- Externally visible actions of the program, in program order. -/
inductive Act where
  | startSerial : Bool → Act
  | setScheduleDefault : Act
  | getDeviceInfo : Act
  | getInitialDemand : Act
  | willSet : Topic → Payload → Bool → Act
  | mqttConnect : Act
  | loopStart : Act
  | installOnConnect : Act
  | publish : Topic → Payload → Bool → Act
  | requestCs : Act
  | requestId : Act
  | stopSerial : Act
  | sleep : Act
  deriving DecidableEq

/-- Inputs one loop iteration consumes from the environment: the optional
CurrentSummation response, the optional InstantaneousDemand response, and
the result the device driver would return from `start_serial` if this cycle
performs a forced reset (line 159 of the source discards that result). -/
structure CycleInput where
  cs : Option Reading
  idm : Option Reading
  reconnectOk : Bool
  deriving DecidableEq

/-- Shared non-response branch of the loop (lines 155-163 and 172-180):
increment the counter; past the threshold, stop and restart the serial
connection and zero the counter; otherwise sleep. -/
def onNonResponse (ok : Bool) (n : ℕ) : ℕ × List Act :=
  if CLIENT_UNRESPONSIVE_MAX < n + 1 then (0, [Act.stopSerial, Act.startSerial ok])
  else (n + 1, [Act.sleep])

/-- One iteration of the `while True` loop (lines 148-201), as a function of
the incoming `emu_unresponsive` counter, returning the outgoing counter and
the actions performed this cycle. -/
def cycle (inp : CycleInput) (n : ℕ) : ℕ × List Act :=
  if nonResponse inp.cs then
    let s := onNonResponse inp.reconnectOk n
    (s.1, Act.requestCs :: s.2)
  else
    let csv := convertOpt inp.cs
    if nonResponse inp.idm then
      let s := onNonResponse inp.reconnectOk 0
      (s.1, Act.requestCs :: Act.requestId :: s.2)
    else
      (0, [Act.requestCs, Act.requestId,
           Act.publish Topic.csState (Payload.readingJson csv) true,
           Act.publish Topic.idState (Payload.readingJson (convertOpt inp.idm)) true,
           Act.sleep])

/-- The polling loop run over a finite script of per-cycle inputs, starting
from a given counter value; yields the counter value and action list after
each cycle. -/
def runLoop : ℕ → List CycleInput → List (ℕ × List Act)
  | _, [] => []
  | n, inp :: rest =>
    let s := cycle inp n
    s :: runLoop s.1 rest

/-- Flattened action trace of the loop. -/
def loopActs (n : ℕ) (inputs : List CycleInput) : List Act :=
  ((runLoop n inputs).map Prod.snd).flatten

/-! ### Startup and process model -/

/-- Body of the `on_connect` handler (lines 126-131): publish the literal
`online`, retained, to the availability topic. -/
def onConnectActs : List Act :=
  [Act.publish Topic.availability (Payload.str "online") true]

/-- Straight-line startup trace of `run` (lines 52-145) on the success path:
serial connect, schedule reset, device info, initial demand (meter MAC),
last-will registration, broker connect, background loop start, the manual
`on_connect` invocation, handler installation, and the two retained
discovery publishes. -/
def startupActs : List Act :=
  [Act.startSerial true, Act.setScheduleDefault, Act.getDeviceInfo, Act.getInitialDemand,
   Act.willSet Topic.availability (Payload.str "offline") true,
   Act.mqttConnect, Act.loopStart]
  ++ onConnectActs
  ++ [Act.installOnConnect,
      Act.publish Topic.csConfig Payload.discoveryCs true,
      Act.publish Topic.idConfig Payload.discoveryId true]

/-- Uncaught exceptions `run` can raise during startup: the explicit
`ValueError` of line 65, and the `AttributeError` of line 75 when the
initial `get_instantaneous_demand()` returns `None`. -/
inductive Err where
  | initFailure : Err
  | noInitialDemand : Err
  deriving DecidableEq

/-- Startup environment: the result of the initial `start_serial` call and
the initial demand response (source of the meter MAC). -/
structure Env where
  startSerialOk : Bool
  initialDemand : Option Reading
  deriving DecidableEq

/-- The `run` function (lines 52-201): startup followed by the polling loop
over a finite input script.  The second component is the uncaught exception,
if any; `none` means run is still looping when the script ends. -/
def run (env : Env) (inputs : List CycleInput) : List Act × Option Err :=
  if env.startSerialOk = false then ([Act.startSerial false], some Err.initFailure)
  else
    match env.initialDemand with
    | none =>
      ([Act.startSerial true, Act.setScheduleDefault, Act.getDeviceInfo,
        Act.getInitialDemand], some Err.noInitialDemand)
    | some _ => (startupActs ++ loopActs 0 inputs, none)

/-- Exit behaviour of `main` (lines 43-49): any exception escaping `run` is
caught, the traceback printed, and the process exits with status 1 via
`os._exit(1)`; `none` means the process is still running. -/
def mainExitCode (env : Env) (inputs : List CycleInput) : Option ℕ :=
  match (run env inputs).2 with
  | some _ => some 1
  | none => none

/-! ### Trace predicates -/

/-- Test for any MQTT publish action. -/
def isPublish : Act → Bool
  | Act.publish _ _ _ => true
  | _ => false

/-- Test for a publish to the CurrentSummation discovery (config) topic. -/
def isCsConfigPublish : Act → Bool
  | Act.publish Topic.csConfig _ _ => true
  | _ => false

/-- Test for a publish to the InstantaneousDemand discovery (config) topic. -/
def isIdConfigPublish : Act → Bool
  | Act.publish Topic.idConfig _ _ => true
  | _ => false

/-- Test for a publish to either discovery (config) topic. -/
def isConfigPublish : Act → Bool
  | Act.publish Topic.csConfig _ _ => true
  | Act.publish Topic.idConfig _ _ => true
  | _ => false

/-- Test for a publish to either state topic. -/
def isStatePublish : Act → Bool
  | Act.publish Topic.csState _ _ => true
  | Act.publish Topic.idState _ _ => true
  | _ => false

/-- Test for a publish to the CurrentSummation state topic. -/
def isCsStatePublish : Act → Bool
  | Act.publish Topic.csState _ _ => true
  | _ => false

/-- Test for a non-retained publish. -/
def isNonRetainedPublish : Act → Bool
  | Act.publish _ _ false => true
  | _ => false

/-- Test for a `stop_serial` call. -/
def isStopSerial : Act → Bool
  | Act.stopSerial => true
  | _ => false

/-- Test for a `start_serial` call. -/
def isStartSerial : Act → Bool
  | Act.startSerial _ => true
  | _ => false

/-- Test for a `start_serial` call that failed (returned falsy). -/
def isStartSerialFailure : Act → Bool
  | Act.startSerial false => true
  | _ => false

/-- Test for a CurrentSummation request. -/
def isRequestCs : Act → Bool
  | Act.requestCs => true
  | _ => false

/-- Test for the last-will registration. -/
def isWillSet : Act → Bool
  | Act.willSet _ _ _ => true
  | _ => false

/-- Test for the broker connect call. -/
def isMqttConnect : Act → Bool
  | Act.mqttConnect => true
  | _ => false

/-- Test for a retained publish of the literal `online` to the availability
topic. -/
def isOnlinePublish : Act → Bool
  | Act.publish Topic.availability (Payload.str s) r => s == "online" && r
  | _ => false

/-- Test for the installation of the `on_connect` reconnect handler. -/
def isInstallOnConnect : Act → Bool
  | Act.installOnConnect => true
  | _ => false

/-- Test for the `get_device_info` call. -/
def isGetDeviceInfoAct : Act → Bool
  | Act.getDeviceInfo => true
  | _ => false

/-- Test for the initial `get_instantaneous_demand` call. -/
def isGetInitialDemandAct : Act → Bool
  | Act.getInitialDemand => true
  | _ => false

/-! ### Helper lemmas about the loop -/

/-- Helper: over a script of CurrentSummation non-responses short enough to
keep the counter at or below the threshold, every cycle increments the
counter and sleeps. -/
theorem runLoop_all_bad_le (inputs : List CycleInput) :
    ∀ n : ℕ, (∀ i ∈ inputs, nonResponse i.cs = true) →
      n + inputs.length ≤ CLIENT_UNRESPONSIVE_MAX →
      runLoop n inputs
        = (List.range' (n + 1) inputs.length).map
            (fun k => (k, [Act.requestCs, Act.sleep])) := by
  induction inputs with
  | nil => intro n _ _; rfl
  | cons a rest ih =>
    intro n hbad hlen
    have ha : nonResponse a.cs = true := hbad a (List.mem_cons_self a rest)
    have h1 : ¬ CLIENT_UNRESPONSIVE_MAX < n + 1 := by
      simp only [List.length_cons] at hlen; omega
    have hr := ih (n + 1) (fun i hi => hbad i (List.mem_cons_of_mem a hi))
      (by simp only [List.length_cons] at hlen; omega)
    simp [runLoop, cycle, ha, onNonResponse, h1, hr, List.range']

/-- Helper: the loop performs exactly one iteration per scripted cycle; it
never exits early, whatever the inputs (including failed reconnects). -/
theorem runLoop_length (inputs : List CycleInput) :
    ∀ n : ℕ, (runLoop n inputs).length = inputs.length := by
  induction inputs with
  | nil => intro n; rfl
  | cons a rest ih => intro n; simp [runLoop, ih]

/-- Helper: the non-response branch never publishes to a discovery topic. -/
theorem onNonResponse_countP_config (ok : Bool) (n : ℕ) :
    ((onNonResponse ok n).2).countP isConfigPublish = 0 := by
  unfold onNonResponse
  split_ifs <;> rfl

/-- Helper: no loop cycle ever publishes to a discovery (config) topic. -/
theorem cycle_countP_config (inp : CycleInput) (n : ℕ) :
    ((cycle inp n).2).countP isConfigPublish = 0 := by
  unfold cycle
  dsimp only
  split_ifs <;>
    simp [List.countP_cons, onNonResponse_countP_config, isConfigPublish]

/-- Helper: one unfolding step of the flattened loop trace. -/
theorem loopActs_cons (a : CycleInput) (rest : List CycleInput) (n : ℕ) :
    loopActs n (a :: rest) = (cycle a n).2 ++ loopActs (cycle a n).1 rest := by
  simp [loopActs, runLoop]

/-- Helper: the flattened loop trace contains no discovery publishes. -/
theorem loopActs_countP_config (inputs : List CycleInput) :
    ∀ n : ℕ, (loopActs n inputs).countP isConfigPublish = 0 := by
  induction inputs with
  | nil => intro n; rfl
  | cons a rest ih =>
    intro n
    rw [loopActs_cons, List.countP_append, cycle_countP_config, ih (cycle a n).1]

/-! ### Helper lemmas about the decimal model -/

/-- Helper: rounding an integer value is the identity. -/
theorem rhe_intCast (m : ℤ) : rhe ((m : ℤ) : ℚ) = m := by
  unfold rhe
  dsimp only
  rw [Int.floor_intCast, sub_self, if_pos (by norm_num : (0:ℚ) < 1 / 2)]

/-- Helper: `floorLog10` is a lower bound exponent — for positive `a`,
`10 ^ floorLog10 a ≤ a`. -/
theorem ten_zpow_floorLog10_le (a : ℚ) (ha : 0 < a) : (10 : ℚ) ^ floorLog10 a ≤ a := by
  unfold floorLog10
  by_cases h1 : 1 ≤ a
  · rw [if_pos h1]
    have hfl0 : 1 ≤ ⌊a⌋ := Int.le_floor.mpr (by exact_mod_cast h1)
    have hne : ⌊a⌋.toNat ≠ 0 := by omega
    have h2 : 10 ^ Nat.log 10 ⌊a⌋.toNat ≤ ⌊a⌋.toNat := Nat.pow_log_le_self 10 hne
    have h3 : ((⌊a⌋.toNat : ℚ)) ≤ a := by
      have h4 : ((⌊a⌋.toNat : ℤ) : ℚ) ≤ a := by
        rw [Int.toNat_of_nonneg (by omega : (0:ℤ) ≤ ⌊a⌋)]
        exact Int.floor_le a
      exact_mod_cast h4
    rw [zpow_natCast]
    calc (10 : ℚ) ^ Nat.log 10 ⌊a⌋.toNat
        = ((10 ^ Nat.log 10 ⌊a⌋.toNat : ℕ) : ℚ) := by push_cast; ring
      _ ≤ ((⌊a⌋.toNat : ℕ) : ℚ) := by exact_mod_cast h2
      _ ≤ a := h3
  · rw [if_neg h1]
    dsimp only
    push_neg at h1
    have hainv : 1 < a⁻¹ := (one_lt_inv₀ ha).mpr h1
    have hfl1 : 1 ≤ ⌊a⁻¹⌋ := Int.le_floor.mpr (by exact_mod_cast hainv.le)
    by_cases h2 : a * 10 ^ ((Nat.log 10 ⌊a⁻¹⌋.toNat : ℤ)) = 1
    · rw [if_pos h2]
      have hpow : (0:ℚ) < 10 ^ ((Nat.log 10 ⌊a⁻¹⌋.toNat : ℤ)) := zpow_pos (by norm_num) _
      have hne0 : ((10:ℚ) ^ ((Nat.log 10 ⌊a⁻¹⌋.toNat : ℤ))) ≠ 0 := ne_of_gt hpow
      rw [zpow_neg]
      have heq : a = ((10:ℚ) ^ ((Nat.log 10 ⌊a⁻¹⌋.toNat : ℤ)))⁻¹ := by
        have := eq_div_of_mul_eq hne0 h2
        rwa [one_div] at this
      rw [← heq]
    · rw [if_neg h2]
      have h3 : ⌊a⁻¹⌋.toNat < 10 ^ (Nat.log 10 ⌊a⁻¹⌋.toNat + 1) :=
        Nat.lt_pow_succ_log_self (by norm_num) _
      have h4 : a⁻¹ < (10:ℚ) ^ (((Nat.log 10 ⌊a⁻¹⌋.toNat : ℤ)) + 1) := by
        have hlt : a⁻¹ < (⌊a⁻¹⌋ : ℚ) + 1 := Int.lt_floor_add_one a⁻¹
        have h5 : ((⌊a⁻¹⌋.toNat : ℤ)) + 1 ≤ 10 ^ (Nat.log 10 ⌊a⁻¹⌋.toNat + 1) := by
          exact_mod_cast Nat.succ_le_of_lt h3
        have h6 : (⌊a⁻¹⌋ : ℤ) + 1 ≤ 10 ^ (Nat.log 10 ⌊a⁻¹⌋.toNat + 1) := by
          rwa [Int.toNat_of_nonneg (by omega : (0:ℤ) ≤ ⌊a⁻¹⌋)] at h5
        have hle : ((⌊a⁻¹⌋ : ℚ) + 1)
            ≤ (10:ℚ) ^ (((Nat.log 10 ⌊a⁻¹⌋.toNat : ℤ)) + 1) := by
          calc ((⌊a⁻¹⌋ : ℚ) + 1) = (((⌊a⁻¹⌋ + 1 : ℤ)) : ℚ) := by push_cast; ring
            _ ≤ (((10:ℤ) ^ (Nat.log 10 ⌊a⁻¹⌋.toNat + 1) : ℤ) : ℚ) := by exact_mod_cast h6
            _ = (10:ℚ) ^ (((Nat.log 10 ⌊a⁻¹⌋.toNat : ℤ)) + 1) := by
                rw [show (((Nat.log 10 ⌊a⁻¹⌋.toNat : ℤ)) + 1)
                    = ((Nat.log 10 ⌊a⁻¹⌋.toNat + 1 : ℕ) : ℤ) by push_cast; ring]
                rw [zpow_natCast]
                push_cast
                ring
        linarith
      rw [zpow_neg]
      have h8 := inv_strictAnti₀ (by positivity : (0:ℚ) < a⁻¹) h4
      rw [inv_inv] at h8
      exact le_of_lt h8

/-- Helper: rounding to 28 significant digits is the identity on any
positive rational representable as `c * 10 ^ k` with `c` an integer of at
most 28 decimal digits. -/
theorem decRoundPos_eq_self (a : ℚ) (c k : ℤ) (ha : 0 < a)
    (hrep : a = (c : ℚ) * 10 ^ k) (hc : c < 10 ^ 28) : decRoundPos a = a := by
  have h10k : (0:ℚ) < 10 ^ k := zpow_pos (by norm_num) k
  have h10ne : (10:ℚ) ≠ 0 := by norm_num
  have hcpos : 0 < c := by
    by_contra hle
    push_neg at hle
    have hcq : (c:ℚ) ≤ 0 := by exact_mod_cast hle
    nlinarith [hrep, h10k, ha]
  have hP : ((DECIMAL_PREC : ℤ)) - 1 = 27 := by norm_num [DECIMAL_PREC]
  unfold decRoundPos
  rw [hP]
  set e : ℤ := floorLog10 a with he
  have hlow : (10:ℚ) ^ e ≤ a := by
    rw [he]; exact ten_zpow_floorLog10_le a ha
  have hup : a < (10:ℚ) ^ (k + 28) := by
    have hcq : (c : ℚ) < 10 ^ (28:ℕ) := by exact_mod_cast hc
    calc a = (c:ℚ) * 10 ^ k := hrep
      _ < (10:ℚ) ^ (28:ℕ) * 10 ^ k := mul_lt_mul_of_pos_right hcq h10k
      _ = (10:ℚ) ^ (k + 28) := by
          rw [zpow_add₀ h10ne, ← zpow_natCast (10:ℚ) 28]
          ring
  have he28 : e < k + 28 :=
    (zpow_lt_zpow_iff_right₀ (by norm_num : (1:ℚ) < 10)).mp (lt_of_le_of_lt hlow hup)
  have hent : (27 : ℤ) - e + k = (((27 - e + k).toNat : ℕ) : ℤ) := by omega
  have key : a * 10 ^ ((27:ℤ) - e) = ((c * 10 ^ ((27 - e + k).toNat) : ℤ) : ℚ) := by
    push_cast
    rw [← zpow_natCast (10:ℚ) ((27 - e + k).toNat), ← hent, hrep, mul_assoc,
      ← zpow_add₀ h10ne]
    rw [show k + ((27:ℤ) - e) = 27 - e + k from by ring]
  rw [key, rhe_intCast, ← key, mul_assoc, ← zpow_add₀ h10ne,
    show ((27:ℤ) - e) + (e - 27) = 0 from by ring, zpow_zero, mul_one]

/-- Helper: rounding to 28 significant digits is the identity on any
rational representable as `c * 10 ^ k` with `|c| < 10 ^ 28`. -/
theorem decRound_eq_self (q : ℚ) (c k : ℤ) (hrep : q = (c : ℚ) * 10 ^ k)
    (hc : |c| < 10 ^ 28) : decRound q = q := by
  have hc' := abs_lt.mp hc
  unfold decRound
  by_cases h0 : q = 0
  · rw [if_pos h0, h0]
  · rw [if_neg h0]
    by_cases hneg : q < 0
    · rw [if_pos hneg]
      have hpos : 0 < -q := by linarith
      have hstep : decRoundPos (-q) = -q :=
        decRoundPos_eq_self (-q) (-c) k hpos
          (by rw [hrep]; push_cast; ring) (by omega)
      rw [hstep]
      ring
    · rw [if_neg hneg]
      have hpos : 0 < q := lt_of_le_of_ne (not_lt.mp hneg) (Ne.symm h0)
      exact decRoundPos_eq_self q c k hpos hrep (by omega)

/-- Helper: no integer multiple of a power of ten equals 1/3 — the exact
quotient 1/3 is not representable in any finite decimal precision. -/
theorem int_mul_zpow_ne_third (c z : ℤ) : ((c : ℚ) * 10 ^ z) ≠ 1 / 3 := by
  intro h
  have h3 : (3 : ℚ) * ((c:ℚ) * 10 ^ z) = 1 := by rw [h]; norm_num
  cases z with
  | ofNat m =>
    rw [show (Int.ofNat m) = ((m : ℕ) : ℤ) from rfl, zpow_natCast] at h3
    have h4 : ((3 * c * 10 ^ m : ℤ) : ℚ) = 1 := by push_cast; linarith
    have h5 : (3 * c * 10 ^ m : ℤ) = 1 := by exact_mod_cast h4
    have h6 : (3:ℤ) ∣ 1 := ⟨c * 10 ^ m, by linarith⟩
    norm_num at h6
  | negSucc m =>
    rw [zpow_negSucc] at h3
    have h10 : ((10:ℚ) ^ (m + 1)) ≠ 0 := by positivity
    have h5 : (3:ℚ) * c = 10 ^ (m + 1) := by
      field_simp at h3
      linarith
    have h6 : (3 * c : ℤ) = 10 ^ (m + 1) := by exact_mod_cast h5
    have h7 : (3:ℤ) ∣ 10 ^ (m + 1) := ⟨c, h6.symm ▸ rfl⟩
    have h8 : (3:ℤ) ∣ 10 := Int.prime_three.dvd_of_dvd_pow h7
    omega

/-! ### Claim theorems -/

/-- C1 counterexample: in a run of five consecutive cycles in which every
CurrentSummation request returns a genuine (timestamped) response and every
InstantaneousDemand request is a non-response — more than the threshold 3
consecutive InstantaneousDemand non-responses — the claimed forced
disconnect+reconnect never happens: the trace contains no `stop_serial` and
no `start_serial` call, and the counter is 1 after every cycle, never
exceeding the threshold.  This refutes the claim that the threshold/reset
policy fires in such runs. -/
theorem C1_counterexample :
    CLIENT_UNRESPONSIVE_MAX < 5
    ∧ nonResponse (some (⟨some "t", 1, 1, 1⟩ : Reading)) = false
    ∧ nonResponse (none : Option Reading) = true
    ∧ (runLoop 0 (List.replicate 5
         (⟨some ⟨some "t", 1, 1, 1⟩, none, true⟩ : CycleInput))).map Prod.fst
        = [1, 1, 1, 1, 1]
    ∧ (loopActs 0 (List.replicate 5
         (⟨some ⟨some "t", 1, 1, 1⟩, none, true⟩ : CycleInput))).countP isStopSerial = 0
    ∧ (loopActs 0 (List.replicate 5
         (⟨some ⟨some "t", 1, 1, 1⟩, none, true⟩ : CycleInput))).countP isStartSerial = 0 := by
  decide

/-- C1 (amended): in every run in which each CurrentSummation request
returns a genuine response and each InstantaneousDemand request is a
non-response, the identical threshold/reset branch for InstantaneousDemand
exists in the code but is never reached: the genuine CurrentSummation
response zeroes the shared counter each cycle before the
InstantaneousDemand attempt, so each InstantaneousDemand non-response
leaves the counter at 1 ≤ threshold, every such cycle merely sleeps, and no
disconnect+reconnect is ever invoked (from any starting counter value). -/
theorem C1_id_failures_never_reset (n : ℕ) (inputs : List CycleInput)
    (h : ∀ i ∈ inputs, nonResponse i.cs = false ∧ nonResponse i.idm = true) :
    runLoop n inputs
      = List.replicate inputs.length (1, [Act.requestCs, Act.requestId, Act.sleep]) := by
  induction inputs generalizing n with
  | nil => rfl
  | cons a rest ih =>
    obtain ⟨ha1, ha2⟩ := h a (List.mem_cons_self a rest)
    have hr := ih 1 (fun i hi => h i (List.mem_cons_of_mem a hi))
    simp [runLoop, cycle, ha1, ha2, onNonResponse, CLIENT_UNRESPONSIVE_MAX, hr,
      List.replicate]

/-- C1 witness: the amended statement at a concrete run of four such cycles
starting from counter 7. -/
theorem C1_id_failures_never_reset_witness :
    runLoop 7 (List.replicate 4 (⟨some ⟨some "t", 1, 1, 1⟩, none, true⟩ : CycleInput))
      = List.replicate 4 (1, [Act.requestCs, Act.requestId, Act.sleep]) := by
  rw [C1_id_failures_never_reset 7 _ (by decide)]
  decide

/-- C2 counterexample: a cycle whose CurrentSummation response is genuine
but whose InstantaneousDemand response is absent performs no publish at all
— in particular the converted CurrentSummation value is not published to
the state topic in that same cycle, refuting the claim. -/
theorem C2_counterexample :
    nonResponse (some (⟨some "t", 7, 1, 1⟩ : Reading)) = false
    ∧ ((cycle (⟨some ⟨some "t", 7, 1, 1⟩, none, true⟩ : CycleInput) 0).2).countP
        isCsStatePublish = 0
    ∧ ((cycle (⟨some ⟨some "t", 7, 1, 1⟩, none, true⟩ : CycleInput) 0).2).countP
        isPublish = 0 := by
  decide

/-- C2 (amended): in every cycle in which the CurrentSummation response is
genuine, the counter is reset to 0 and the reading converted, but the
converted value is published — retained, as the single-field JSON object
with key `reading` — to the CurrentSummation state topic in that same cycle
only when the cycle's InstantaneousDemand response is also genuine; this
theorem gives the full cycle result in that case (publish of both converted
readings, retained, then sleep, counter 0). -/
theorem C2_publish_requires_both_genuine (n : ℕ) (inp : CycleInput)
    (hcs : nonResponse inp.cs = false) (hid : nonResponse inp.idm = false) :
    cycle inp n
      = (0, [Act.requestCs, Act.requestId,
             Act.publish Topic.csState (Payload.readingJson (convertOpt inp.cs)) true,
             Act.publish Topic.idState (Payload.readingJson (convertOpt inp.idm)) true,
             Act.sleep]) := by
  simp [cycle, hcs, hid]

/-- C2 witness: the amended statement at a concrete cycle with both
responses genuine and incoming counter 5. -/
theorem C2_publish_requires_both_genuine_witness :
    cycle (⟨some ⟨some "t", 7, 1, 1⟩, some ⟨some "u", 2, 1, 1⟩, true⟩ : CycleInput) 5
      = (0, [Act.requestCs, Act.requestId,
             Act.publish Topic.csState
               (Payload.readingJson (convertOpt (some ⟨some "t", 7, 1, 1⟩))) true,
             Act.publish Topic.idState
               (Payload.readingJson (convertOpt (some ⟨some "u", 2, 1, 1⟩))) true,
             Act.sleep]) :=
  C2_publish_requires_both_genuine 5 _ (by decide) (by decide)

/-- C3: starting from counter 0, under consecutive CurrentSummation
non-responses the first three cycles each sleep, and the fourth cycle — the
moment the counter (4) exceeds the threshold (3) — performs exactly one
disconnect (`stop_serial`) + reconnect (`start_serial`), resets the counter
to 0, and does not sleep before the next attempt.  The continuation `rest`
is arbitrary, covering every script of more than threshold non-responses. -/
theorem C3_reset_at_threshold_crossing
    (a b c d : CycleInput) (rest : List CycleInput)
    (ha : nonResponse a.cs = true) (hb : nonResponse b.cs = true)
    (hc : nonResponse c.cs = true) (hd : nonResponse d.cs = true) :
    runLoop 0 (a :: b :: c :: d :: rest)
      = (1, [Act.requestCs, Act.sleep]) :: (2, [Act.requestCs, Act.sleep])
        :: (3, [Act.requestCs, Act.sleep])
        :: (0, [Act.requestCs, Act.stopSerial, Act.startSerial d.reconnectOk])
        :: runLoop 0 rest := by
  simp [runLoop, cycle, ha, hb, hc, hd, onNonResponse, CLIENT_UNRESPONSIVE_MAX]

/-- C3 witness: the statement at a concrete script of five non-responses. -/
theorem C3_reset_at_threshold_crossing_witness :
    runLoop 0 (List.replicate 5 (⟨none, none, true⟩ : CycleInput))
      = (1, [Act.requestCs, Act.sleep]) :: (2, [Act.requestCs, Act.sleep])
        :: (3, [Act.requestCs, Act.sleep])
        :: (0, [Act.requestCs, Act.stopSerial, Act.startSerial true])
        :: runLoop 0 [⟨none, none, true⟩] := by
  exact C3_reset_at_threshold_crossing _ _ _ _ _ (by decide) (by decide) (by decide)
    (by decide)

/-- C4: starting from counter 0, for N consecutive CurrentSummation
non-responses with N ≤ threshold (3): no reconnect is triggered, each of
the N cycles short-circuits (requests CurrentSummation, then sleeps once —
no InstantaneousDemand request, no publish), and the counter equals i after
the i-th non-response, in particular N after the N-th. -/
theorem C4_below_threshold_only_sleeps (inputs : List CycleInput)
    (hbad : ∀ i ∈ inputs, nonResponse i.cs = true)
    (hlen : inputs.length ≤ CLIENT_UNRESPONSIVE_MAX) :
    runLoop 0 inputs
      = (List.range' 1 inputs.length).map (fun k => (k, [Act.requestCs, Act.sleep])) :=
  runLoop_all_bad_le inputs 0 hbad (by omega)

/-- C4 witness: the statement at a concrete script of three non-responses. -/
theorem C4_below_threshold_only_sleeps_witness :
    runLoop 0 (List.replicate 3 (⟨none, none, true⟩ : CycleInput))
      = [(1, [Act.requestCs, Act.sleep]), (2, [Act.requestCs, Act.sleep]),
         (3, [Act.requestCs, Act.sleep])] := by
  rw [C4_below_threshold_only_sleeps _ (by decide) (by decide)]
  decide

/-- C5: the counter policy of the loop.  (1) A genuine CurrentSummation
response makes the cycle's entire outcome independent of the prior counter
value (the counter is set to 0 at that moment, lines 165/182); with both
responses genuine the cycle ends with counter 0.  (2) The counter value
carried from one cycle to the next never exceeds the threshold, so with the
transient increment the counter stays within [0, threshold+1].  (3) In the
non-response branch, whenever the incremented counter exceeds the
threshold it is zeroed. -/
theorem C5_counter_policy (n m : ℕ) (inp : CycleInput) (ok : Bool) :
    (nonResponse inp.cs = false → cycle inp n = cycle inp m)
    ∧ (nonResponse inp.cs = false → nonResponse inp.idm = false → (cycle inp n).1 = 0)
    ∧ (cycle inp n).1 ≤ CLIENT_UNRESPONSIVE_MAX
    ∧ (CLIENT_UNRESPONSIVE_MAX < n + 1 → (onNonResponse ok n).1 = 0) := by
  refine ⟨fun h => by simp [cycle, h], fun h1 h2 => by simp [cycle, h1, h2], ?_,
    fun h => by simp [onNonResponse, h]⟩
  unfold cycle onNonResponse
  dsimp only
  split_ifs <;> simp_all [CLIENT_UNRESPONSIVE_MAX]

/-- C5 witness: the policy at concrete cycles — outcome independence of the
prior counter under a genuine CurrentSummation response (counters 9 vs 0),
final counter 0 when both responses are genuine, the bound on the outgoing
counter, and zeroing at counter 3 (3 + 1 > threshold). -/
theorem C5_counter_policy_witness :
    (cycle (⟨some ⟨some "t", 7, 1, 1⟩, some ⟨some "u", 2, 1, 1⟩, true⟩ : CycleInput) 9
       = cycle (⟨some ⟨some "t", 7, 1, 1⟩, some ⟨some "u", 2, 1, 1⟩, true⟩ : CycleInput) 0)
    ∧ (cycle (⟨some ⟨some "t", 7, 1, 1⟩, some ⟨some "u", 2, 1, 1⟩, true⟩ : CycleInput) 9).1 = 0
    ∧ (cycle (⟨none, none, true⟩ : CycleInput) 2).1 ≤ CLIENT_UNRESPONSIVE_MAX
    ∧ (onNonResponse true 3).1 = 0 :=
  ⟨(C5_counter_policy 9 0 _ true).1 (by decide),
   (C5_counter_policy 9 0 _ true).2.1 (by decide) (by decide),
   (C5_counter_policy 2 0 _ true).2.2.1,
   (C5_counter_policy 3 0 (⟨none, none, true⟩ : CycleInput) true).2.2.2 (by decide)⟩

/-- C7 counterexample: a run in which startup succeeds, the device then
stops answering, and the forced reset's reopen attempt fails
(`start_serial` returns falsy).  The trace records exactly one failed
`start_serial`; afterwards the loop keeps polling (a further
CurrentSummation request follows the failed reopen), no exception is
raised, and the process has not terminated — refuting the claim that a
reconnect failure is fatal and exits with non-zero status. -/
theorem C7_counterexample :
    ((run ⟨true, some ⟨some "t", 0, 1, 1⟩⟩
        (List.replicate 5 (⟨none, none, false⟩ : CycleInput))).1).countP
      isStartSerialFailure = 1
    ∧ (run ⟨true, some ⟨some "t", 0, 1, 1⟩⟩
        (List.replicate 5 (⟨none, none, false⟩ : CycleInput))).2 = none
    ∧ mainExitCode ⟨true, some ⟨some "t", 0, 1, 1⟩⟩
        (List.replicate 5 (⟨none, none, false⟩ : CycleInput)) = none
    ∧ (((run ⟨true, some ⟨some "t", 0, 1, 1⟩⟩
          (List.replicate 5 (⟨none, none, false⟩ : CycleInput))).1.dropWhile
            (fun a => ! isStartSerialFailure a)).countP isRequestCs) = 1 := by
  decide

/-- C6 counterexample: at (raw, multiplier, divisor) = (1, 1, 3) — a
non-zero divisor — the conversion does not return the exact rational value
1·1/3: Python's decimal division rounds the quotient to the 28 significant
digits of the default context, and no integer multiple of a power of ten
equals 1/3.  This refutes the claim of exactness for every divisor ≠ 0. -/
theorem C6_counterexample : (3 : ℤ) ≠ 0 ∧ convert 1 1 3 ≠ (1 : ℚ) * 1 / 3 := by
  constructor
  · norm_num
  · have hone : decRound (1:ℚ) = 1 := by
      have h := decRound_eq_self ((1:ℚ)) 1 0 (by norm_num) (by norm_num)
      simpa using h
    have hconv : convert 1 1 3 = decRound ((1:ℚ) / 3) := by
      unfold convert
      norm_num [hone]
    rw [hconv]
    have hd : decRound ((1:ℚ) / 3) = decRoundPos ((1:ℚ) / 3) := by
      unfold decRound
      rw [if_neg (by norm_num), if_neg (by norm_num)]
    rw [hd]
    unfold decRoundPos
    intro h
    exact int_mul_zpow_ne_third
      (rhe (((1:ℚ) / 3) * 10 ^ (((DECIMAL_PREC : ℤ)) - 1 - floorLog10 ((1:ℚ) / 3))))
      (floorLog10 ((1:ℚ) / 3) - ((DECIMAL_PREC : ℤ) - 1)) (by linarith [h])

/-- C6 (amended): the conversion uses decimal (non-binary-floating-point)
arithmetic — modelled here with exact rationals rounded to the 28
significant digits of Python's default decimal context, floating point
appearing only at the serialization boundary — and it is a pure function,
so repeated conversions of the same inputs are bit-identical.  It returns
exactly raw·multiplier/divisor whenever both the product raw·multiplier and
the exact quotient are representable within 28 significant decimal digits
(in particular for the device's power-of-ten divisors and readings below
10^28); for quotients needing more digits, such as 1/3, the result is the
correctly rounded 28-digit value instead of the exact rational. -/
theorem C6_conversion_exact_when_representable (raw mult div : ℤ) (hdiv : div ≠ 0)
    (hprod : |raw * mult| < 10 ^ 28)
    (hquot : ∃ c k : ℤ,
      ((raw * mult : ℤ) : ℚ) / (div : ℚ) = (c : ℚ) * 10 ^ k ∧ |c| < 10 ^ 28) :
    convert raw mult div = (raw : ℚ) * (mult : ℚ) / (div : ℚ) := by
  obtain ⟨c, k, hq, hck⟩ := hquot
  unfold convert
  have h1 : decRound ((raw : ℚ) * (mult : ℚ)) = (raw : ℚ) * (mult : ℚ) := by
    have hr : ((raw : ℚ) * (mult : ℚ)) = ((raw * mult : ℤ) : ℚ) * 10 ^ (0:ℤ) := by
      push_cast
      ring
    exact decRound_eq_self _ (raw * mult) 0 hr hprod
  rw [h1]
  have h2 : ((raw : ℚ) * (mult : ℚ)) / (div : ℚ) = ((raw * mult : ℤ) : ℚ) / (div : ℚ) := by
    push_cast
    ring
  rw [h2]
  exact decRound_eq_self _ c k hq hck

/-- C6 witness: the amended statement at the spec's own scenario
(raw, multiplier, divisor) = (12345, 1, 1000), whose exact quotient 12.345
is representable in 28 significant digits, so the conversion is exact. -/
theorem C6_conversion_exact_witness :
    convert 12345 1 1000 = (12345 : ℚ) * 1 / 1000 := by
  apply C6_conversion_exact_when_representable 12345 1 1000 (by norm_num) (by norm_num)
  refine ⟨12345, -3, ?_, by norm_num⟩
  rw [show ((-3 : ℤ)) = -((3:ℕ) : ℤ) from rfl, zpow_neg, zpow_natCast]
  norm_num

/-- C7 (amended): during a forced reset the source (line 159) discards the
result of the reopen attempt, so a failed reopen is not fatal: the counter
evolution is identical whether the reopen succeeds or fails, and the loop
executes one iteration per scripted cycle regardless of the inputs — it
never terminates, the failure surfacing only as further non-responses on
later cycles.  Only an exception raised inside the device driver would
propagate to `main` and exit non-zero. -/
theorem C7_reconnect_result_ignored (n : ℕ) (inputs : List CycleInput) (ok ok' : Bool) :
    (runLoop n inputs).length = inputs.length
    ∧ (onNonResponse ok n).1 = (onNonResponse ok' n).1 := by
  refine ⟨runLoop_length inputs n, ?_⟩
  unfold onNonResponse
  split_ifs <;> rfl

/-- C8: in every run whose startup succeeds, the full trace decomposes into
the straight-line startup followed by the loop trace; the startup publishes
each of the two discovery descriptors exactly once and contains no
non-retained publish and no state publish, the loop trace contains no
discovery publish, and within the startup the `get_device_info` and initial
`get_instantaneous_demand` calls (positions 2 and 3) precede the two
discovery publishes (positions 9 and 10).  Hence each descriptor is
published exactly once, retained, after DeviceInfo and MeterIdentity are
obtained and before any state-topic publish. -/
theorem C8_discovery_published_once (env : Env) (inputs : List CycleInput) (r : Reading)
    (hok : env.startSerialOk = true) (hd : env.initialDemand = some r) :
    (run env inputs).1 = startupActs ++ loopActs 0 inputs
    ∧ startupActs.countP isCsConfigPublish = 1
    ∧ startupActs.countP isIdConfigPublish = 1
    ∧ startupActs.countP isNonRetainedPublish = 0
    ∧ startupActs.countP isStatePublish = 0
    ∧ (loopActs 0 inputs).countP isConfigPublish = 0
    ∧ startupActs.findIdx? isGetDeviceInfoAct = some 2
    ∧ startupActs.findIdx? isGetInitialDemandAct = some 3
    ∧ startupActs.findIdx? isCsConfigPublish = some 9
    ∧ startupActs.findIdx? isIdConfigPublish = some 10 := by
  refine ⟨?_, by decide, by decide, by decide, by decide,
    loopActs_countP_config inputs 0, by decide, by decide, by decide, by decide⟩
  simp [run, hok, hd]

/-- C8 witness: the statement at a concrete successful environment with an
empty loop script. -/
theorem C8_discovery_published_once_witness :
    (run ⟨true, some ⟨none, 0, 1, 1⟩⟩ []).1 = startupActs ++ loopActs 0 []
    ∧ startupActs.countP isCsConfigPublish = 1 :=
  ⟨(C8_discovery_published_once ⟨true, some ⟨none, 0, 1, 1⟩⟩ [] ⟨none, 0, 1, 1⟩
      rfl rfl).1,
   (C8_discovery_published_once ⟨true, some ⟨none, 0, 1, 1⟩⟩ [] ⟨none, 0, 1, 1⟩
      rfl rfl).2.1⟩

/-- C9: the `on_connect` handler consists exactly of a retained publish of
the literal `online` to the availability topic; in the startup trace the
last-will registration — `offline`, retained, on that same availability
topic — sits at position 4, strictly before the broker connect call at
position 5; the manual handler invocation publishes `online` at position 7
(after the connect), and the handler is installed as the reconnect callback
at position 8, so the collaborator re-runs it on every subsequent
successful reconnect.  The startup trace is a prefix of every successful
run. -/
theorem C9_availability_protocol (env : Env) (inputs : List CycleInput) (r : Reading)
    (hok : env.startSerialOk = true) (hd : env.initialDemand = some r) :
    onConnectActs = [Act.publish Topic.availability (Payload.str "online") true]
    ∧ startupActs.findIdx? isWillSet = some 4
    ∧ startupActs[4]? = some (Act.willSet Topic.availability (Payload.str "offline") true)
    ∧ startupActs.findIdx? isMqttConnect = some 5
    ∧ startupActs.findIdx? isOnlinePublish = some 7
    ∧ startupActs.findIdx? isInstallOnConnect = some 8
    ∧ (run env inputs).1.take startupActs.length = startupActs := by
  refine ⟨rfl, by decide, by decide, by decide, by decide, by decide, ?_⟩
  simp [run, hok, hd]

/-- C9 witness: the statement at a concrete successful environment. -/
theorem C9_availability_protocol_witness :
    startupActs.findIdx? isWillSet = some 4
    ∧ startupActs.findIdx? isMqttConnect = some 5
    ∧ (run ⟨true, some ⟨none, 0, 1, 1⟩⟩ []).1.take startupActs.length = startupActs :=
  ⟨(C9_availability_protocol ⟨true, some ⟨none, 0, 1, 1⟩⟩ [] ⟨none, 0, 1, 1⟩
      rfl rfl).2.1,
   (C9_availability_protocol ⟨true, some ⟨none, 0, 1, 1⟩⟩ [] ⟨none, 0, 1, 1⟩
      rfl rfl).2.2.2.1,
   (C9_availability_protocol ⟨true, some ⟨none, 0, 1, 1⟩⟩ [] ⟨none, 0, 1, 1⟩
      rfl rfl).2.2.2.2.2.2⟩

/-- C10: if the initial `start_serial` returns falsy, `run` raises
(ValueError, line 65) before any broker interaction; `main` catches it and
the process exits with status 1, and the trace contains no publish to any
topic. -/
theorem C10_startup_failure_exits (env : Env) (inputs : List CycleInput)
    (h : env.startSerialOk = false) :
    mainExitCode env inputs = some 1
    ∧ ((run env inputs).1).countP isPublish = 0 := by
  constructor
  · simp [mainExitCode, run, h]
  · have htr : (run env inputs).1 = [Act.startSerial false] := by simp [run, h]
    rw [htr]
    decide

/-- C10 witness: the statement at a concrete failing environment. -/
theorem C10_startup_failure_exits_witness :
    mainExitCode ⟨false, none⟩ [] = some 1
    ∧ ((run ⟨false, none⟩ []).1).countP isPublish = 0 :=
  C10_startup_failure_exits ⟨false, none⟩ [] rfl

end FlyingEmu
